import Mathlib

/-!
Verification of the browser_server session controller (src/browser_server.py).

The Python `BrowserManager` class and the queue middleware are shallowly
embedded: the mutable attributes of the manager become fields of `BMState`,
Python dicts become association lists, the asyncio futures become entries of
an explicit `futures` table keyed by a fresh counter, and the opaque browser
engine (Playwright) is modelled by per-page flags and by outcome parameters
(a page whose `titleFails` flag is set is one whose `page.title()` round trip
raises; an engine action is a given `Except String` outcome).
-/

set_option autoImplicit false

namespace BrowserServer

universe u v

/-- Association-list lookup, mirroring Python `dict.get`. -/
def alookup {κ : Type u} {α : Type v} [DecidableEq κ] (m : List (κ × α)) (k : κ) : Option α :=
  match m with
  | [] => none
  | kv :: t => if kv.1 = k then some kv.2 else alookup t k

/-- Association-list key removal, mirroring Python `dict.pop(k, None)`. -/
def aerase {κ : Type u} {α : Type v} [DecidableEq κ] (k : κ) (m : List (κ × α)) : List (κ × α) :=
  m.filter (fun kv => !decide (kv.1 = k))

/-- Association-list insertion/overwrite, mirroring Python `d[k] = v`. -/
def ainsert {κ : Type u} {α : Type v} [DecidableEq κ] (k : κ) (v : α) (m : List (κ × α)) :
    List (κ × α) :=
  (k, v) :: aerase k m

theorem alookup_aerase_self {κ : Type u} {α : Type v} [DecidableEq κ] (k : κ)
    (m : List (κ × α)) : alookup (aerase k m) k = none := by
  induction m with
  | nil => rfl
  | cons kv t ih =>
    by_cases h : kv.1 = k
    · simpa [aerase, h] using ih
    · simpa [aerase, alookup, h] using ih

theorem alookup_aerase_ne {κ : Type u} {α : Type v} [DecidableEq κ] (k j : κ)
    (m : List (κ × α)) (h : j ≠ k) : alookup (aerase j m) k = alookup m k := by
  induction m with
  | nil => rfl
  | cons kv t ih =>
    by_cases hk : kv.1 = j
    · have hkk : kv.1 ≠ k := by
        rw [hk]
        exact h
      rw [show aerase j (kv :: t) = aerase j t by simp [aerase, hk]]
      rw [show alookup (kv :: t) k = alookup t k by simp [alookup, hkk]]
      exact ih
    · rw [show aerase j (kv :: t) = kv :: aerase j t by simp [aerase, hk]]
      by_cases hkk : kv.1 = k
      · simp [alookup, hkk]
      · simp only [alookup, if_neg hkk]
        exact ih

theorem alookup_ainsert_self {κ : Type u} {α : Type v} [DecidableEq κ] (k : κ) (v : α)
    (m : List (κ × α)) : alookup (ainsert k v m) k = some v := by
  simp [ainsert, alookup]

theorem alookup_ainsert_ne {κ : Type u} {α : Type v} [DecidableEq κ] (k j : κ) (v : α)
    (m : List (κ × α)) (h : j ≠ k) : alookup (ainsert j v m) k = alookup m k := by
  show (if j = k then some v else alookup (aerase j m) k) = alookup m k
  rw [if_neg h]
  exact alookup_aerase_ne k j m h

/-- Substring test on the underlying character lists; `listHasPre n h` holds when
`n` is an initial segment of `h`. Models Python's `needle in haystack`. -/
def listHasPre {α : Type u} [DecidableEq α] : List α → List α → Bool
  | [], _ => true
  | _ :: _, [] => false
  | n :: ns, h :: hs => decide (n = h) && listHasPre ns hs

def listContains {α : Type u} [DecidableEq α] (hay needle : List α) : Bool :=
  match hay with
  | [] => needle.isEmpty
  | _ :: t => listHasPre needle hay || listContains t needle

/-- Python `needle in haystack` on strings. -/
def strContains (hay needle : String) : Bool :=
  listContains hay.toList needle.toList

/-- One open page of the persistent context. `titleFails` models an engine page
whose `page.title()` round trip raises (dead execution context / crashed target). -/
structure Page where
  pid : Nat
  url : String
  title : String
  titleFails : Bool
deriving Repr, DecidableEq

/-- A record of `self.downloads`, as built by `_handle_download`. -/
structure DownloadInfo where
  url : String
  path : Option String
  filename : String
  error : Option String
deriving Repr, DecidableEq

/-- The observable data of a fired Playwright dialog. -/
structure DialogInfo where
  dtype : String
  message : String
  defaultValue : String
deriving Repr, DecidableEq

/-- Resolution state of an asyncio future created by `wait_dialog`/`wait_download`. -/
inductive FutSt where
  | pending
  | resolvedDownload (info : DownloadInfo)
  | resolvedDialog (d : DialogInfo)
  | cancelled
deriving Repr, DecidableEq

/-- One entry of `self.network_request_map`, as built by `_handle_request`. -/
structure NetworkEntry where
  id : String
  request_object_id : Nat
  url : String
  method : String
  resource_type : String
  headers : List (String × String)
  post_data : Option String
  timestamp : Nat
  response_status : Option Nat
  response_headers : Option (List (String × String))
  response_body : Option String
deriving Repr, DecidableEq

/-- The mutable attributes of the Python `BrowserManager` instance.
`running` models `self.context is not None`; `pages` models `context.pages`
(creation order); `page` is the current-page pointer `self.page` (which may
hold a reference to a page no longer listed in `pages`); `futures` tracks the
resolution state of every future ever created, keyed by `next_fid`. -/
structure BMState where
  running : Bool
  pages : List Page
  page : Option Page
  user_data_dir : Option String
  headless : Option Bool
  download_dir : String
  downloads : List DownloadInfo
  last_download : Option DownloadInfo
  dialog : Option DialogInfo
  dialog_future : Option Nat
  download_future : Option Nat
  futures : List (Nat × FutSt)
  network_requests : List String
  network_request_map : List (String × NetworkEntry)
  network_request_id_map : List (Nat × String)
  network_limit : Nat
  next_fid : Nat
  next_pid : Nat
deriving Repr, DecidableEq

/-- `BrowserManager.__init__`. -/
def initialBMState : BMState :=
  { running := false, pages := [], page := none, user_data_dir := none, headless := none,
    download_dir := "downloads", downloads := [], last_download := none, dialog := none,
    dialog_future := none, download_future := none, futures := [], network_requests := [],
    network_request_map := [], network_request_id_map := [], network_limit := 2000,
    next_fid := 0, next_pid := 0 }

/-- Errors surfaced to HTTP callers: `http code msg` models `HTTPException(code, msg)`,
`exc msg` models a raw propagated Python exception. -/
inductive Err where
  | http (code : Nat) (msg : String)
  | exc (msg : String)
deriving Repr, DecidableEq

def notStartedErr : Err := Err.http 400 "Browser not started"

/-- `BrowserManager.stop` (lines 349-377): an early return when the context is
absent; otherwise the context is closed (failures swallowed) and the session
fields are reset. Note that `self.downloads` and `self.last_download` are not
touched. -/
def stop (st : BMState) : BMState :=
  if st.running = false then st
  else
    { st with
      running := false, pages := [], page := none, user_data_dir := none, headless := none,
      dialog := none, dialog_future := none, download_future := none,
      network_requests := [], network_request_map := [], network_request_id_map := [] }

/-- A running session holding one finished download record and one network
log entry; used to evaluate `stop` at a concrete state. -/
def exSessionC1 : BMState :=
  { running := true,
    pages := [{ pid := 0, url := "http://example.com", title := "Example", titleFails := false }],
    page := some { pid := 0, url := "http://example.com", title := "Example", titleFails := false },
    user_data_dir := some "user_data", headless := some true, download_dir := "downloads",
    downloads := [{ url := "http://example.com/f.zip", path := some "downloads/f.zip",
                    filename := "f.zip", error := none }],
    last_download := some { url := "http://example.com/f.zip", path := some "downloads/f.zip",
                            filename := "f.zip", error := none },
    dialog := none, dialog_future := none, download_future := none, futures := [],
    network_requests := ["aa"],
    network_request_map := [("aa",
      { id := "aa", request_object_id := 7, url := "http://example.com", method := "GET",
        resource_type := "document", headers := [], post_data := none, timestamp := 1,
        response_status := none, response_headers := none, response_body := none })],
    network_request_id_map := [(7, "aa")], network_limit := 2000, next_fid := 0,
    next_pid := 1 }

/-- C1, counterexample: `stop()` does not clear the download-record list.
In the concrete running session `exSessionC1` that holds one download record,
the state after `stop` still carries that record, so the session-scoped state
is not all cleared as the claim states. -/
theorem C1_counterexample :
    exSessionC1.running = true ∧ (stop exSessionC1).downloads ≠ [] ∧
      (stop exSessionC1).last_download ≠ none := by
  decide

/-- C1, amended: after `stop()` on a running session the network log, both
correlation maps, the dialog state and the pending-future pointers are cleared
and the session is no longer running, but the download-record list and the
last-download record are retained (they are process-lifetime state); `stop` on
a non-running session is a no-op, and `stop` is idempotent. -/
theorem C1_session_state_after_stop (st : BMState) (h : st.running = true) :
    (stop st).network_requests = [] ∧ (stop st).network_request_map = [] ∧
      (stop st).network_request_id_map = [] ∧ (stop st).dialog = none ∧
      (stop st).dialog_future = none ∧ (stop st).download_future = none ∧
      (stop st).running = false ∧ (stop st).page = none ∧ (stop st).pages = [] ∧
      (stop st).downloads = st.downloads ∧ (stop st).last_download = st.last_download ∧
      stop (stop st) = stop st ∧ (∀ s : BMState, s.running = false → stop s = s) := by
  constructor
  · simp [stop, h]
  · constructor
    · simp [stop, h]
    · constructor
      · simp [stop, h]
      · constructor
        · simp [stop, h]
        · constructor
          · simp [stop, h]
          · constructor
            · simp [stop, h]
            · constructor
              · simp [stop, h]
              · constructor
                · simp [stop, h]
                · constructor
                  · simp [stop, h]
                  · constructor
                    · simp [stop, h]
                    · constructor
                      · simp [stop, h]
                      · constructor
                        · simp [stop, h]
                        · intro s hs
                          simp [stop, hs]

/-- C1 witness: the amended statement evaluated at the concrete session. -/
theorem C1_session_state_after_stop_witness :
    (stop exSessionC1).network_requests = [] ∧ (stop exSessionC1).network_request_map = [] ∧
      (stop exSessionC1).network_request_id_map = [] ∧ (stop exSessionC1).dialog = none ∧
      (stop exSessionC1).dialog_future = none ∧ (stop exSessionC1).download_future = none ∧
      (stop exSessionC1).running = false ∧ (stop exSessionC1).page = none ∧
      (stop exSessionC1).pages = [] ∧ (stop exSessionC1).downloads = exSessionC1.downloads ∧
      (stop exSessionC1).last_download = exSessionC1.last_download ∧
      stop (stop exSessionC1) = stop exSessionC1 ∧
      (∀ s : BMState, s.running = false → stop s = s) :=
  C1_session_state_after_stop exSessionC1 (by decide)

/-- The data carried by one `context.on("request")` event: the engine request
object's Python identity `id(request)`, the fresh `uuid4().hex` entry id the
handler draws, and the request attributes read from the engine object. -/
structure ReqEvent where
  objId : Nat
  entryId : String
  url : String
  method : String
  resource_type : String
  headers : List (String × String)
  post_data : Option String
  timestamp : Nat
deriving Repr, DecidableEq

/-- The dict literal built inside `_handle_request`. -/
def mkEntry (ev : ReqEvent) : NetworkEntry :=
  { id := ev.entryId, request_object_id := ev.objId, url := ev.url, method := ev.method,
    resource_type := ev.resource_type, headers := ev.headers, post_data := ev.post_data,
    timestamp := ev.timestamp, response_status := none, response_headers := none,
    response_body := none }

/-- The eviction step of `_store_network_entry`: `popleft` the oldest entry id,
pop its record from the request map, and purge its `request_object_id` from the
identity-correlation map. -/
def evictOldest (st : BMState) : BMState :=
  match st.network_requests with
  | [] => st
  | oldId :: rest =>
    { st with network_requests := rest,
              network_request_map := aerase oldId st.network_request_map,
              network_request_id_map :=
                match alookup st.network_request_map oldId with
                | some oldE => aerase oldE.request_object_id st.network_request_id_map
                | none => st.network_request_id_map }

/-- `BrowserManager._store_network_entry` (lines 246-253): append the entry,
then evict the oldest one when the deque exceeds `network_limit`. -/
def storeNetworkEntry (st : BMState) (entryId : String) (entry : NetworkEntry) : BMState :=
  if st.network_limit < (st.network_requests ++ [entryId]).length then
    evictOldest
      { st with network_requests := st.network_requests ++ [entryId],
                network_request_map := ainsert entryId entry st.network_request_map }
  else
    { st with network_requests := st.network_requests ++ [entryId],
              network_request_map := ainsert entryId entry st.network_request_map }

/-- `BrowserManager._handle_request` (lines 255-272): register the engine
identity correlation, build the entry, and store it. -/
def handleRequest (st : BMState) (ev : ReqEvent) : BMState :=
  storeNetworkEntry
    { st with network_request_id_map := ainsert ev.objId ev.entryId st.network_request_id_map }
    ev.entryId (mkEntry ev)

/-- A sequence of request-sent events, processed in arrival order. -/
def processRequests (st : BMState) (evs : List ReqEvent) : BMState :=
  evs.foldl handleRequest st

theorem evictOldest_requests (st : BMState) :
    (evictOldest st).network_requests = st.network_requests.drop 1 := by
  unfold evictOldest
  split <;> simp_all

theorem evictOldest_limit (st : BMState) :
    (evictOldest st).network_limit = st.network_limit := by
  unfold evictOldest
  split <;> rfl

theorem storeNetworkEntry_limit (st : BMState) (eid : String) (e : NetworkEntry) :
    (storeNetworkEntry st eid e).network_limit = st.network_limit := by
  unfold storeNetworkEntry
  split
  · rw [evictOldest_limit]
  · rfl

theorem storeNetworkEntry_requests (st : BMState) (eid : String) (e : NetworkEntry)
    (h : st.network_requests.length ≤ st.network_limit) :
    (storeNetworkEntry st eid e).network_requests
      = (st.network_requests ++ [eid]).drop
          ((st.network_requests.length + 1) - st.network_limit) := by
  unfold storeNetworkEntry
  by_cases hlt : st.network_limit < (st.network_requests ++ [eid]).length
  · rw [if_pos hlt, evictOldest_requests]
    have hidx : (st.network_requests.length + 1) - st.network_limit = 1 := by
      simp only [List.length_append, List.length_cons, List.length_nil] at hlt
      omega
    rw [hidx]
  · rw [if_neg hlt]
    have hidx : (st.network_requests.length + 1) - st.network_limit = 0 := by
      simp only [List.length_append, List.length_cons, List.length_nil] at hlt
      omega
    rw [hidx, List.drop_zero]

theorem handleRequest_limit (st : BMState) (ev : ReqEvent) :
    (handleRequest st ev).network_limit = st.network_limit := by
  unfold handleRequest
  rw [storeNetworkEntry_limit]

theorem handleRequest_requests (st : BMState) (ev : ReqEvent)
    (h : st.network_requests.length ≤ st.network_limit) :
    (handleRequest st ev).network_requests
      = (st.network_requests ++ [ev.entryId]).drop
          ((st.network_requests.length + 1) - st.network_limit) := by
  unfold handleRequest
  rw [storeNetworkEntry_requests]
  exact h

theorem processRequests_spec (evs : List ReqEvent) (st : BMState)
    (h : st.network_requests.length ≤ st.network_limit) :
    (processRequests st evs).network_limit = st.network_limit ∧
    (processRequests st evs).network_requests
      = (st.network_requests ++ evs.map ReqEvent.entryId).drop
          ((st.network_requests.length + evs.length) - st.network_limit) := by
  induction evs generalizing st with
  | nil =>
    refine ⟨rfl, ?_⟩
    simp only [processRequests, List.foldl_nil, List.map_nil, List.append_nil,
      List.length_nil, Nat.add_zero]
    rw [Nat.sub_eq_zero_of_le h, List.drop_zero]
  | cons e t ih =>
    have hfold : processRequests st (e :: t) = processRequests (handleRequest st e) t := rfl
    have hreq := handleRequest_requests st e h
    have hlim := handleRequest_limit st e
    have hlen1 : (handleRequest st e).network_requests.length
        = (st.network_requests.length + 1)
          - ((st.network_requests.length + 1) - st.network_limit) := by
      rw [hreq, List.length_drop, List.length_append, List.length_cons, List.length_nil]
    have hlen : (handleRequest st e).network_requests.length
        ≤ (handleRequest st e).network_limit := by
      rw [hlen1, hlim]
      omega
    obtain ⟨ih1, ih2⟩ := ih (handleRequest st e) hlen
    constructor
    · rw [hfold, ih1, hlim]
    · rw [hfold, ih2, hlim, hlen1, hreq]
      rw [← List.drop_append_of_le_length (by
        rw [List.length_append, List.length_cons, List.length_nil]
        omega)]
      rw [List.drop_drop]
      have hassoc : st.network_requests ++ [e.entryId] ++ t.map ReqEvent.entryId
          = st.network_requests ++ (e :: t).map ReqEvent.entryId := by
        simp
      rw [hassoc]
      congr 1
      simp only [List.length_cons]
      omega

theorem handleRequest_evicts (st' : BMState) (ev : ReqEvent) (oldId : String)
    (rest : List String) (oldE : NetworkEntry)
    (hreq : st'.network_requests = oldId :: rest)
    (hfull : st'.network_limit ≤ st'.network_requests.length)
    (hne : oldId ≠ ev.entryId)
    (hold : alookup st'.network_request_map oldId = some oldE) :
    (handleRequest st' ev).network_requests = rest ++ [ev.entryId] ∧
    alookup (handleRequest st' ev).network_request_map oldId = none ∧
    alookup (handleRequest st' ev).network_request_id_map oldE.request_object_id = none := by
  have hlook : alookup (ainsert ev.entryId (mkEntry ev) st'.network_request_map) oldId
      = some oldE := by
    rw [alookup_ainsert_ne _ _ _ _ (fun hc => hne hc.symm)]
    exact hold
  obtain ⟨run, pgs, pg, udd, hl, dd, dls, ld, dg, dgf, dlf, fut, nreq, nmap, nidm, nlim,
    nf, np⟩ := st'
  simp only at hreq hfull hold hlook
  subst hreq
  have hcond : nlim < ((oldId :: rest) ++ [ev.entryId]).length := by
    simp only [List.length_append, List.length_cons, List.length_nil] at hfull ⊢
    omega
  simp only [handleRequest, storeNetworkEntry, evictOldest, List.cons_append] at hcond ⊢
  rw [if_pos hcond]
  simp only [hlook]
  refine ⟨?_, alookup_aerase_self _ _, alookup_aerase_self _ _⟩
  trivial

/-- C2: for every sequence of request-sent events into an initially empty log,
the network log never exceeds `network_limit` (2000 in `BrowserManager.__init__`),
the survivors after inserting `n ≥ limit` entries are exactly the last `limit`
entry ids in arrival order (strict FIFO eviction), and when an insertion evicts
the oldest entry its engine-identity correlation mapping is purged from
`network_request_id_map` along with its record in `network_request_map`. -/
theorem C2_network_log_bound (st st' : BMState) (evs : List ReqEvent) (ev : ReqEvent)
    (oldId : String) (rest : List String) (oldE : NetworkEntry)
    (h0 : st.network_requests = []) :
    initialBMState.network_limit = 2000 ∧
    (processRequests st evs).network_requests.length ≤ st.network_limit ∧
    (processRequests st evs).network_requests
      = (evs.map ReqEvent.entryId).drop (evs.length - st.network_limit) ∧
    (st'.network_requests = oldId :: rest →
      st'.network_limit ≤ st'.network_requests.length →
      oldId ≠ ev.entryId →
      alookup st'.network_request_map oldId = some oldE →
      (handleRequest st' ev).network_requests = rest ++ [ev.entryId] ∧
      alookup (handleRequest st' ev).network_request_map oldId = none ∧
      alookup (handleRequest st' ev).network_request_id_map oldE.request_object_id
        = none) := by
  have hinit : st.network_requests.length ≤ st.network_limit := by
    rw [h0]
    exact Nat.zero_le _
  obtain ⟨hlim, hreqs⟩ := processRequests_spec evs st hinit
  refine ⟨rfl, ?_, ?_, ?_⟩
  · rw [hreqs, h0]
    simp only [List.nil_append, List.length_drop, List.length_map, List.length_nil,
      Nat.zero_add]
    omega
  · rw [hreqs, h0, List.nil_append]
    congr 1
    simp
  · intro h1 h2 h3 h4
    exact handleRequest_evicts st' ev oldId rest oldE h1 h2 h3 h4

/-- A request event with generic attributes, used for concrete evaluations. -/
def evW (n : Nat) (s : String) : ReqEvent :=
  { objId := n, entryId := s, url := "http://u", method := "GET", resource_type := "xhr",
    headers := [], post_data := none, timestamp := n }

def stW2 : BMState := { initialBMState with network_limit := 2 }

def stP2 : BMState :=
  { initialBMState with
    network_limit := 1, network_requests := ["a"],
    network_request_map := [("a", mkEntry (evW 5 "a"))],
    network_request_id_map := [(5, "a")] }

/-- C2 witness: with capacity 2, inserting 3 entries leaves exactly the last 2,
and an insertion into a full log purges the evicted entry's correlation key. -/
theorem C2_network_log_bound_witness :
    (processRequests stW2 [evW 1 "x", evW 2 "y", evW 3 "z"]).network_requests = ["y", "z"] ∧
    (handleRequest stP2 (evW 9 "b")).network_requests = ["b"] ∧
    alookup (handleRequest stP2 (evW 9 "b")).network_request_id_map 5 = none := by
  have h := C2_network_log_bound stW2 stP2 [evW 1 "x", evW 2 "y", evW 3 "z"] (evW 9 "b")
    "a" [] (mkEntry (evW 5 "a")) (by decide)
  have h4 := h.2.2.2 (by decide) (by decide) (by decide) (by decide)
  exact ⟨h.2.2.1, h4.1, h4.2.2⟩

/-- The MIME tokens `_handle_response` treats as textual. -/
def textualTokens : List String := ["text", "json", "javascript", "xml", "html"]

/-- `BrowserManager._handle_response` (lines 274-292): look up the originating
request by engine identity; silently return if it is not tracked or its record
is gone; otherwise fill in status/headers (and body for textual content types,
truncated to 10000 characters; a failed body read is modelled by `bodyText =
none`) and drop the identity-correlation entry. -/
def handleResponse (st : BMState) (objId : Nat) (status : Nat)
    (headers : List (String × String)) (bodyText : Option String) : BMState :=
  match alookup st.network_request_id_map objId with
  | none => st
  | some reqId =>
    if reqId = "" then st
    else
      match alookup st.network_request_map reqId with
      | none => st
      | some entry =>
        { st with
          network_request_map :=
            ainsert reqId
              { entry with
                response_status := some status,
                response_headers := some headers,
                response_body :=
                  if textualTokens.any
                      (fun tok => strContains ((alookup headers "content-type").getD "") tok)
                  then bodyText.map (fun t => t.take 10000)
                  else entry.response_body }
              st.network_request_map,
          network_request_id_map := aerase objId st.network_request_id_map }

/-- C3: a response event whose originating request has no tracked correlation
entry (`network_request_id_map` lookup misses, e.g. after eviction) is a
no-op: `_handle_response` returns without touching any state. -/
theorem C3_untracked_response_noop (st : BMState) (objId status : Nat)
    (headers : List (String × String)) (bodyText : Option String)
    (h : alookup st.network_request_id_map objId = none) :
    handleResponse st objId status headers bodyText = st := by
  unfold handleResponse
  rw [h]

/-- C3 witness: a response for untracked engine identity 8 leaves the concrete
session state exactly as it was. -/
theorem C3_untracked_response_noop_witness :
    handleResponse exSessionC1 8 200 [("content-type", "text/html")] (some "page")
      = exSessionC1 :=
  C3_untracked_response_noop exSessionC1 8 200 [("content-type", "text/html")] (some "page")
    (by decide)

/-- Model of the engine call `await page.title()`: raises for a page whose
execution context is destroyed / target crashed. -/
def pageFailMsg : String := "Page closed or crashed"

def pageTitle (p : Page) : Except String String :=
  if p.titleFails then Except.error pageFailMsg else Except.ok p.title

/-- The page `context.new_page()` returns: a fresh blank page. -/
def freshPage (st : BMState) : Page :=
  { pid := st.next_pid, url := "about:blank", title := "", titleFails := false }

/-- Create a fresh page, append it to the page set and make it current
(`self.page = await self.context.new_page()`). -/
def addFreshCurrent (st : BMState) : BMState :=
  { st with pages := st.pages ++ [freshPage st], page := some (freshPage st),
            next_pid := st.next_pid + 1 }

/-- The recovery body of `BrowserManager._ensure_page` (lines 198-213), run when
the context is present: adopt the first open page when there is no current page
or the current page fails its `title()` liveness probe, creating a page when
none remain. -/
def ensurePageCore (st : BMState) : BMState :=
  match st.page with
  | none =>
    match st.pages with
    | p :: _ => { st with page := some p }
    | [] => addFreshCurrent st
  | some p =>
    if p.titleFails then
      match st.pages with
      | q :: _ => { st with page := some q }
      | [] => addFreshCurrent st
    else st

/-- `BrowserManager._ensure_page`: raises `HTTPException(400)` when the context
is absent, otherwise performs the recovery. -/
def ensurePage (st : BMState) : Except Err BMState :=
  if st.running = false then Except.error notStartedErr else Except.ok (ensurePageCore st)

/-- The conditional recovery at the top of `get_status`:
`if self.page: await self._ensure_page()`. -/
def firstEnsured (st : BMState) : BMState :=
  match st.page with
  | some _ => ensurePageCore st
  | none => st

/-- The status report returned by `get_status`. -/
structure StatusV where
  running : Bool
  url : Option String
  title : Option String
  headless : Option Bool
  user_data_dir : Option String
deriving Repr, DecidableEq

/-- `BrowserManager.get_status` (lines 788-800): not-running report when the
context is absent; otherwise run `_ensure_page` if a current page exists, then
read the current page's title (an engine call that is NOT guarded by a
try/except, so its failure propagates) and report url/title. -/
def getStatus (st : BMState) : Except Err StatusV × BMState :=
  if st.running = false then
    (Except.ok { running := false, url := none, title := none, headless := none,
                 user_data_dir := none }, st)
  else
    match (firstEnsured st).page with
    | none =>
      (Except.ok { running := true, url := none, title := none,
                   headless := (firstEnsured st).headless,
                   user_data_dir := (firstEnsured st).user_data_dir }, firstEnsured st)
    | some p =>
      match pageTitle p with
      | Except.error m => (Except.error (Err.exc m), firstEnsured st)
      | Except.ok t =>
        (Except.ok { running := true, url := some p.url, title := some t,
                     headless := (firstEnsured st).headless,
                     user_data_dir := (firstEnsured st).user_data_dir }, firstEnsured st)

theorem ensurePageCore_frame (st : BMState) :
    (ensurePageCore st).downloads = st.downloads ∧
    (ensurePageCore st).last_download = st.last_download ∧
    (ensurePageCore st).network_requests = st.network_requests ∧
    (ensurePageCore st).network_request_map = st.network_request_map ∧
    (ensurePageCore st).network_request_id_map = st.network_request_id_map ∧
    (ensurePageCore st).dialog = st.dialog ∧
    (ensurePageCore st).dialog_future = st.dialog_future ∧
    (ensurePageCore st).download_future = st.download_future ∧
    (ensurePageCore st).futures = st.futures ∧
    (ensurePageCore st).running = st.running ∧
    (ensurePageCore st).headless = st.headless ∧
    (ensurePageCore st).user_data_dir = st.user_data_dir ∧
    (ensurePageCore st).download_dir = st.download_dir ∧
    (ensurePageCore st).network_limit = st.network_limit := by
  unfold ensurePageCore addFreshCurrent
  split
  · split <;> simp
  · split
    · split <;> simp
    · simp

theorem firstEnsured_frame (st : BMState) :
    (firstEnsured st).downloads = st.downloads ∧
    (firstEnsured st).last_download = st.last_download ∧
    (firstEnsured st).network_requests = st.network_requests ∧
    (firstEnsured st).network_request_map = st.network_request_map ∧
    (firstEnsured st).network_request_id_map = st.network_request_id_map ∧
    (firstEnsured st).dialog = st.dialog ∧
    (firstEnsured st).dialog_future = st.dialog_future ∧
    (firstEnsured st).download_future = st.download_future ∧
    (firstEnsured st).futures = st.futures ∧
    (firstEnsured st).running = st.running ∧
    (firstEnsured st).headless = st.headless ∧
    (firstEnsured st).user_data_dir = st.user_data_dir := by
  unfold firstEnsured
  split
  · obtain ⟨h1, h2, h3, h4, h5, h6, h7, h8, h9, h10, h11, h12, _⟩ := ensurePageCore_frame st
    exact ⟨h1, h2, h3, h4, h5, h6, h7, h8, h9, h10, h11, h12⟩
  · exact ⟨rfl, rfl, rfl, rfl, rfl, rfl, rfl, rfl, rfl, rfl, rfl, rfl⟩

theorem firstEnsured_of_live (st : BMState) (p : Page) (hp : st.page = some p)
    (hlive : p.titleFails = false) : firstEnsured st = st := by
  unfold firstEnsured ensurePageCore
  rw [hp]
  simp [hlive]

def deadPage : Page := { pid := 1, url := "http://dead", title := "", titleFails := true }

def livePage : Page := { pid := 2, url := "http://live", title := "Live", titleFails := false }

/-- A running session whose only page fails its title probe: `_ensure_page`
re-adopts the same dead page and the unguarded title read in `get_status`
then raises. -/
def exSessionC8 : BMState :=
  { initialBMState with
    running := true, page := some deadPage, pages := [deadPage],
    headless := some true, user_data_dir := some "user_data" }

/-- A healthy running session for evaluating the success paths of `get_status`. -/
def exSessionOk : BMState :=
  { initialBMState with
    running := true, page := some livePage, pages := [livePage],
    headless := some false, user_data_dir := some "ud" }

/-- C8, counterexample: `getStatus` CAN fail. In the concrete running session
`exSessionC8` whose recovered current page still fails the title read, the
unguarded `await self.page.title()` on line 793 propagates the engine error to
the caller instead of reporting a null title. -/
theorem C8_counterexample :
    (getStatus exSessionC8).1 = Except.error (Err.exc pageFailMsg) := by
  rfl

/-- C8, amended: `getStatus` reports not-running without error when the context
is absent; with a running context it reports null url/title when there is no
current page, and the page url/title when the (possibly recovered) current
page's title read succeeds; but when the title read on the recovered current
page fails, the error propagates to the caller (the title is not nulled), so
`getStatus` is not failure-free. -/
theorem C8_get_status_best_effort (st : BMState) (p : Page) :
    (st.running = false → (getStatus st).1
        = Except.ok { running := false, url := none, title := none, headless := none,
                      user_data_dir := none }) ∧
    (st.running = true → st.page = none → (getStatus st).1
        = Except.ok { running := true, url := none, title := none, headless := st.headless,
                      user_data_dir := st.user_data_dir }) ∧
    (st.running = true → (firstEnsured st).page = some p → p.titleFails = false →
        (getStatus st).1
          = Except.ok { running := true, url := some p.url, title := some p.title,
                        headless := st.headless, user_data_dir := st.user_data_dir }) ∧
    (st.running = true → (firstEnsured st).page = some p → p.titleFails = true →
        (getStatus st).1 = Except.error (Err.exc pageFailMsg)) := by
  obtain ⟨_, _, _, _, _, _, _, _, _, _, hh, hu⟩ := firstEnsured_frame st
  refine ⟨?_, ?_, ?_, ?_⟩
  · intro hrun
    simp [getStatus, hrun]
  · intro hrun hpage
    have hfe : firstEnsured st = st := by
      unfold firstEnsured
      rw [hpage]
    simp [getStatus, hrun, hfe, hpage]
  · intro hrun hfp hlive
    simp only [getStatus, hrun, Bool.true_eq_false, if_false, hfp, pageTitle, hlive,
      Bool.false_eq_true, hh, hu]
  · intro hrun hfp hdead
    simp only [getStatus, hrun, Bool.true_eq_false, if_false, hfp, pageTitle, hdead,
      if_true]

/-- C8 witness: the amended statement evaluated on the empty session and on a
healthy running session. -/
theorem C8_get_status_best_effort_witness :
    (getStatus initialBMState).1
      = Except.ok { running := false, url := none, title := none, headless := none,
                    user_data_dir := none } ∧
    (getStatus exSessionOk).1
      = Except.ok { running := true, url := some "http://live", title := some "Live",
                    headless := some false, user_data_dir := some "ud" } :=
  ⟨(C8_get_status_best_effort initialBMState livePage).1 rfl,
   (C8_get_status_best_effort exSessionOk livePage).2.2.1 rfl (by decide) rfl⟩

/-- A network-log entry as served over HTTP: `dict(entry)` with
`request_object_id` popped and the body blanked unless requested. -/
structure NetworkItem where
  id : String
  url : String
  method : String
  resource_type : String
  headers : List (String × String)
  post_data : Option String
  timestamp : Nat
  response_status : Option Nat
  response_headers : Option (List (String × String))
  response_body : Option String
deriving Repr, DecidableEq

def toItem (e : NetworkEntry) (include_body : Bool) : NetworkItem :=
  { id := e.id, url := e.url, method := e.method, resource_type := e.resource_type,
    headers := e.headers, post_data := e.post_data, timestamp := e.timestamp,
    response_status := e.response_status, response_headers := e.response_headers,
    response_body := if include_body then e.response_body else none }

/-- Python `l[-n:]`. -/
def takeRight {α : Type u} (n : Nat) (l : List α) : List α :=
  l.drop (l.length - n)

/-- `BrowserManager.list_network_requests` (lines 728-754). The URL filter
(`regex.search` when the pattern compiles, substring containment otherwise) is
the opaque engine-independent predicate `urlMatch`; `patternGiven` is whether a
pattern argument was supplied. Returns `(count, items)` plus the (untouched)
session state. -/
def list_network_requests (st : BMState) (patternGiven : Bool) (urlMatch : String → Bool)
    (limit : Nat) (include_body : Bool) : (Nat × List NetworkItem) × BMState :=
  let entries := st.network_requests.filterMap (fun rid =>
    match alookup st.network_request_map rid with
    | none => none
    | some e =>
      if patternGiven && !(urlMatch e.url) then none
      else some (toItem e include_body))
  ((entries.length, takeRight (max limit 1) entries), st)

/-- `BrowserManager.get_network_request` (lines 756-764). -/
def get_network_request (st : BMState) (request_id : String) (include_body : Bool) :
    Except Err NetworkItem × BMState :=
  match alookup st.network_request_map request_id with
  | none => (Except.error (Err.http 404 "Request not found"), st)
  | some e => (Except.ok (toItem e include_body), st)

/-- `BrowserManager.get_downloads` (lines 602-603). -/
def get_downloads (st : BMState) : List DownloadInfo × BMState :=
  (st.downloads, st)

/-- `BrowserManager.get_last_download` (lines 605-606). -/
def get_last_download (st : BMState) : Option DownloadInfo × BMState :=
  (st.last_download, st)

/-- The report of the `/queue/status` route (lines 1053-1059). -/
structure QueueStatusV where
  current : Option String
  queue_length : Nat
  waiting : Nat
deriving Repr, DecidableEq

/-- `/queue/status`: reads the head and length of the shared request queue. -/
def queueStatus (q : List String) : QueueStatusV × List String :=
  ({ current := q.head?, queue_length := q.length, waiting := q.length - 1 }, q)

theorem getStatus_snd (st : BMState) :
    (getStatus st).2 = if st.running = false then st else firstEnsured st := by
  unfold getStatus
  split
  · rfl
  · split
    · simp
    · split <;> simp

/-- C4, amended: of the endpoints that bypass the admission queue, the queue
introspection, download listing, and network-log listing/lookup handlers only
read session state and return it untouched; and `get_status` (behind `/`,
`/health` and `/debug/info`) never touches the network log, download list,
dialog state or futures, and leaves the whole state untouched whenever there
is no current page or the current page passes its liveness probe — but when
the current page is dead, `get_status` runs `_ensure_page`, which MAY mutate
the current-page pointer and the page set. -/
theorem C4_bypass_endpoints_read_only (st : BMState) (q : List String)
    (patternGiven include_body : Bool) (urlMatch : String → Bool) (limit : Nat)
    (request_id : String) :
    (list_network_requests st patternGiven urlMatch limit include_body).2 = st ∧
    (get_network_request st request_id include_body).2 = st ∧
    (get_downloads st).2 = st ∧
    (get_last_download st).2 = st ∧
    (queueStatus q).2 = q ∧
    (getStatus st).2.downloads = st.downloads ∧
    (getStatus st).2.last_download = st.last_download ∧
    (getStatus st).2.network_requests = st.network_requests ∧
    (getStatus st).2.network_request_map = st.network_request_map ∧
    (getStatus st).2.network_request_id_map = st.network_request_id_map ∧
    (getStatus st).2.dialog = st.dialog ∧
    (getStatus st).2.dialog_future = st.dialog_future ∧
    (getStatus st).2.download_future = st.download_future ∧
    (getStatus st).2.running = st.running ∧
    ((st.page = none ∨ ∃ p, st.page = some p ∧ p.titleFails = false) →
      (getStatus st).2 = st) := by
  obtain ⟨f1, f2, f3, f4, f5, f6, f7, f8, _, f10, _, _⟩ := firstEnsured_frame st
  have hsnd := getStatus_snd st
  refine ⟨rfl, ?_, rfl, rfl, rfl, ?_, ?_, ?_, ?_, ?_, ?_, ?_, ?_, ?_, ?_⟩
  · unfold get_network_request
    split <;> rfl
  · rw [hsnd]
    by_cases hrun : st.running = false
    · rw [if_pos hrun]
    · rw [if_neg hrun]
      exact f1
  · rw [hsnd]
    by_cases hrun : st.running = false
    · rw [if_pos hrun]
    · rw [if_neg hrun]
      exact f2
  · rw [hsnd]
    by_cases hrun : st.running = false
    · rw [if_pos hrun]
    · rw [if_neg hrun]
      exact f3
  · rw [hsnd]
    by_cases hrun : st.running = false
    · rw [if_pos hrun]
    · rw [if_neg hrun]
      exact f4
  · rw [hsnd]
    by_cases hrun : st.running = false
    · rw [if_pos hrun]
    · rw [if_neg hrun]
      exact f5
  · rw [hsnd]
    by_cases hrun : st.running = false
    · rw [if_pos hrun]
    · rw [if_neg hrun]
      exact f6
  · rw [hsnd]
    by_cases hrun : st.running = false
    · rw [if_pos hrun]
    · rw [if_neg hrun]
      exact f7
  · rw [hsnd]
    by_cases hrun : st.running = false
    · rw [if_pos hrun]
    · rw [if_neg hrun]
      exact f8
  · rw [hsnd]
    by_cases hrun : st.running = false
    · rw [if_pos hrun]
    · rw [if_neg hrun]
      exact f10
  · intro hcase
    rw [hsnd]
    by_cases hrun : st.running = false
    · rw [if_pos hrun]
    · rw [if_neg hrun]
      rcases hcase with hnone | ⟨p, hp, hlive⟩
      · unfold firstEnsured
        rw [hnone]
      · exact firstEnsured_of_live st p hp hlive

/-- A running session whose current page is dead while a different live page
remains open: the bypassed status endpoint repoints the current page. -/
def exSessionC4 : BMState :=
  { initialBMState with running := true, page := some deadPage, pages := [livePage] }

/-- C4, counterexample: the claim that bypass endpoints never mutate shared
state is false. `get_status` — served on the queue-bypassing `/` and `/health`
routes — calls `_ensure_page`, which, in the concrete state `exSessionC4`
(current page dead, another page open), switches the current-page pointer from
the dead page to the first open page. -/
theorem C4_counterexample :
    (getStatus exSessionC4).2 ≠ exSessionC4 ∧
    (getStatus exSessionC4).2.page = some livePage ∧
    exSessionC4.page = some deadPage := by
  decide

/-- C4 witness: the amended statement evaluated on the empty session. -/
theorem C4_bypass_endpoints_read_only_witness :
    (getStatus initialBMState).2 = initialBMState :=
  (C4_bypass_endpoints_read_only initialBMState [] false false (fun _ => false) 0
      "r").2.2.2.2.2.2.2.2.2.2.2.2.2.2 (Or.inl rfl)

/-- The two failure signatures `_retry_if_context_destroyed` tests `str(e)`
against, in this order. -/
def ctxDestroyedSig : String := "Execution context was destroyed"

def targetClosedSig : String := "Target page, context or browser has been closed"

/-- `BrowserManager._retry_if_context_destroyed` (lines 215-227). The wrapped
engine action is modelled by its outcomes: `o1` is what `func()` returns on
the first invocation and `o2` on the (at most one) retry. On a
context-destroyed failure the guard recovers via `_ensure_page` and reruns the
action once, propagating whatever the rerun produces; on a target/context
closed failure it stops the session and raises `HTTPException(400)`; any other
failure propagates untouched. -/
def retryIfContextDestroyed {α : Type u} (st : BMState) (o1 o2 : Except String α) :
    Except Err α × BMState :=
  match o1 with
  | Except.ok v => (Except.ok v, st)
  | Except.error m =>
    if strContains m ctxDestroyedSig then
      match ensurePage st with
      | Except.error e => (Except.error e, st)
      | Except.ok st1 =>
        match o2 with
        | Except.ok v => (Except.ok v, st1)
        | Except.error m2 => (Except.error (Err.exc m2), st1)
    else if strContains m targetClosedSig then
      (Except.error notStartedErr, stop st)
    else (Except.error (Err.exc m), st)

/-- C5: for every guarded action, (1) a first-attempt success is returned as
is; (2) a first failure carrying the context-destroyed signature triggers page
recovery and exactly one retry whose outcome — success or a second failure —
is surfaced directly (so a second failure propagates without further retry);
(3) a first failure carrying the target/context-closed signature (and not the
context-destroyed one) triggers a full session stop and surfaces the
`NotStarted` error; (4) any other failure propagates without retry and without
touching the session. -/
theorem C5_liveness_guard {α : Type u} (st : BMState) (v : α) (o2 : Except String α)
    (m m2 : String) :
    (retryIfContextDestroyed st (Except.ok v) o2 = (Except.ok v, st)) ∧
    (strContains m ctxDestroyedSig = true → st.running = true →
      retryIfContextDestroyed st (Except.error m) (Except.ok v)
          = (Except.ok v, ensurePageCore st) ∧
      retryIfContextDestroyed st (Except.error m : Except String α)
          (Except.error m2 : Except String α)
          = (Except.error (Err.exc m2), ensurePageCore st)) ∧
    (strContains m ctxDestroyedSig = false → strContains m targetClosedSig = true →
      retryIfContextDestroyed st (Except.error m : Except String α) o2
        = (Except.error notStartedErr, stop st)) ∧
    (strContains m ctxDestroyedSig = false → strContains m targetClosedSig = false →
      retryIfContextDestroyed st (Except.error m : Except String α) o2
        = (Except.error (Err.exc m), st)) := by
  refine ⟨rfl, ?_, ?_, ?_⟩
  · intro hsig hrun
    have hens : ensurePage st = Except.ok (ensurePageCore st) := by
      simp [ensurePage, hrun]
    constructor
    · simp [retryIfContextDestroyed, hsig, hens]
    · simp [retryIfContextDestroyed, hsig, hens]
  · intro hno hsig
    simp [retryIfContextDestroyed, hno, hsig]
  · intro hno hno2
    simp [retryIfContextDestroyed, hno, hno2]

/-- C5 witness: the guard evaluated on a healthy session, once with a
context-destroyed failure (retried against a succeeding rerun) and once with a
target-closed failure (session stopped, NotStarted surfaced). -/
theorem C5_liveness_guard_witness :
    retryIfContextDestroyed exSessionOk (Except.error ctxDestroyedSig)
        (Except.ok (7 : Nat)) = (Except.ok 7, ensurePageCore exSessionOk) ∧
    retryIfContextDestroyed exSessionOk (Except.error targetClosedSig)
        (Except.ok (7 : Nat)) = (Except.error notStartedErr, stop exSessionOk) :=
  ⟨((C5_liveness_guard exSessionOk 7 (Except.ok 7) ctxDestroyedSig "x").2.1
      (by decide) rfl).1,
   (C5_liveness_guard exSessionOk 7 (Except.ok 7) targetClosedSig "x").2.2.1
      (by decide) (by decide)⟩

structure CloseResp where
  remaining_pages : Nat
deriving Repr, DecidableEq

/-- `BrowserManager.close_page` (lines 661-682): when at most one page remains
in the context, navigate the current page to `about:blank` instead of closing
it and report one remaining page; otherwise close the current page, re-point
to the first remaining page (creating a fresh one if none are left) and report
the remaining count. Engine navigation/close calls are modelled as
succeeding. -/
def closePage (st : BMState) : Except Err CloseResp × BMState :=
  match st.page with
  | none => (Except.error notStartedErr, st)
  | some p =>
    if st.running = false then (Except.error notStartedErr, st)
    else if st.pages.length ≤ 1 then
      (Except.ok { remaining_pages := 1 },
        { st with
          page := some { p with url := "about:blank" },
          pages := st.pages.map
            (fun q => if q.pid = p.pid then { p with url := "about:blank" } else q) })
    else
      match st.pages.eraseP (fun q => decide (q.pid = p.pid)) with
      | q :: restPages =>
        (Except.ok { remaining_pages := (q :: restPages).length },
          { st with pages := q :: restPages, page := some q })
      | [] =>
        (Except.ok { remaining_pages := 0 },
          { st with pages := [freshPage st], page := some (freshPage st),
                    next_pid := st.next_pid + 1 })

/-- C6: in a running session with at least one open page, `close_page` never
leaves zero pages; and when exactly the current page remains, it is navigated
to `about:blank` instead of being closed, its identity is preserved, and the
reported and actual page counts are 1. -/
theorem C6_last_page_close (st : BMState) (p : Page)
    (hrun : st.running = true) (hp : st.page = some p) (hne : 1 ≤ st.pages.length) :
    1 ≤ (closePage st).2.pages.length ∧
    (st.pages = [p] →
      (closePage st).1 = Except.ok { remaining_pages := 1 } ∧
      (closePage st).2.pages = [{ p with url := "about:blank" }] ∧
      (closePage st).2.page = some { p with url := "about:blank" }) := by
  by_cases hlen : st.pages.length ≤ 1
  · have hred : closePage st
        = (Except.ok { remaining_pages := 1 },
            { st with
              page := some { p with url := "about:blank" },
              pages := st.pages.map
                (fun q => if q.pid = p.pid then { p with url := "about:blank" } else q) }) := by
      simp [closePage, hp, hrun, hlen]
    rw [hred]
    constructor
    · simpa using hne
    · intro hsingle
      refine ⟨rfl, ?_, rfl⟩
      simp [hsingle]
  · have hcase : st.pages.eraseP (fun q => decide (q.pid = p.pid))
        = st.pages.eraseP (fun q => decide (q.pid = p.pid)) := rfl
    constructor
    · cases herase : st.pages.eraseP (fun q => decide (q.pid = p.pid)) with
      | nil =>
        have hred : closePage st
            = (Except.ok { remaining_pages := 0 },
                { st with pages := [freshPage st], page := some (freshPage st),
                          next_pid := st.next_pid + 1 }) := by
          simp [closePage, hp, hrun, hlen, herase]
        rw [hred]
        simp
      | cons q t =>
        have hred : closePage st
            = (Except.ok { remaining_pages := (q :: t).length },
                { st with pages := q :: t, page := some q }) := by
          simp [closePage, hp, hrun, hlen, herase]
        rw [hred]
        simp
    · intro hsingle
      rw [hsingle] at hlen
      simp at hlen

/-- C6 witness: closing the only page of a healthy single-page session resets
it to a blank page and keeps the page count at 1. -/
theorem C6_last_page_close_witness :
    1 ≤ (closePage exSessionOk).2.pages.length ∧
    (closePage exSessionOk).1 = Except.ok { remaining_pages := 1 } ∧
    (closePage exSessionOk).2.pages = [{ livePage with url := "about:blank" }] ∧
    (closePage exSessionOk).2.page = some { livePage with url := "about:blank" } := by
  have h := C6_last_page_close exSessionOk livePage rfl (by decide) (by decide)
  exact ⟨h.1, h.2 (by decide)⟩

def pageIndexOf (pages : List Page) (pid : Nat) : Nat :=
  pages.findIdx (fun q => decide (q.pid = pid))

structure NewPageResp where
  id : Nat
  url : String
  title : String
deriving Repr, DecidableEq

/-- `BrowserManager.new_page` (lines 816-843): create a fresh page with
`context.new_page()` and immediately make it the current page; only then, when
a URL was supplied, navigate (and run the optional waits). The whole
navigation/wait phase is modelled by its outcome `navOk`; on failure an
`HTTPException(500, ...)` is raised AFTER the current-page pointer has already
been switched. -/
def newPage (st : BMState) (urlArg : Option String) (navOk : Bool) :
    Except Err NewPageResp × BMState :=
  if st.running = false then (Except.error notStartedErr, st)
  else
    match urlArg with
    | none =>
      (Except.ok { id := pageIndexOf (addFreshCurrent st).pages (freshPage st).pid,
                   url := (freshPage st).url, title := (freshPage st).title },
        addFreshCurrent st)
    | some u =>
      if navOk = false then
        (Except.error (Err.http 500 "Open new page failed"), addFreshCurrent st)
      else
        (Except.ok
            { id := pageIndexOf
                ((addFreshCurrent st).pages.map
                  (fun q => if q.pid = (freshPage st).pid then { freshPage st with url := u }
                            else q)) (freshPage st).pid,
              url := u, title := (freshPage st).title },
          { addFreshCurrent st with
            page := some { freshPage st with url := u },
            pages := (addFreshCurrent st).pages.map
              (fun q => if q.pid = (freshPage st).pid then { freshPage st with url := u }
                        else q) })

/-- C10: `new_page` with a URL is not atomic on error: the current-page
pointer is switched to the freshly created blank page before navigation is
attempted, so when the navigation (or subsequent wait) fails and the call
reports failure, the current page has nevertheless already changed to the new
blank page, which is also appended to the page set. -/
theorem C10_new_page_not_atomic (st : BMState) (p0 : Page) (u : String)
    (hrun : st.running = true) (hp : st.page = some p0) (hfresh : p0.pid ≠ st.next_pid) :
    (newPage st (some u) false).1 = Except.error (Err.http 500 "Open new page failed") ∧
    (newPage st (some u) false).2.page = some (freshPage st) ∧
    (newPage st (some u) false).2.page ≠ st.page ∧
    (newPage st (some u) false).2.pages = st.pages ++ [freshPage st] := by
  have hred : newPage st (some u) false
      = (Except.error (Err.http 500 "Open new page failed"), addFreshCurrent st) := by
    simp [newPage, hrun]
  rw [hred]
  refine ⟨rfl, rfl, ?_, rfl⟩
  rw [hp]
  intro heq
  have hpe : freshPage st = p0 := Option.some.inj heq
  have hpid : p0.pid = st.next_pid := by
    rw [← hpe]
    simp [freshPage]
  exact hfresh hpid

/-- C10 witness: opening a new page with a failing navigation from the healthy
single-page session leaves the current page switched to the new blank page. -/
theorem C10_new_page_not_atomic_witness :
    (newPage exSessionOk (some "http://x") false).1
      = Except.error (Err.http 500 "Open new page failed") ∧
    (newPage exSessionOk (some "http://x") false).2.page = some (freshPage exSessionOk) ∧
    (newPage exSessionOk (some "http://x") false).2.page ≠ exSessionOk.page ∧
    (newPage exSessionOk (some "http://x") false).2.pages
      = exSessionOk.pages ++ [freshPage exSessionOk] :=
  C10_new_page_not_atomic exSessionOk livePage "http://x" rfl (by decide) (by decide)

/-- `asyncio.Future.done()` of a tracked future. -/
def futureDone (st : BMState) (f : Nat) : Bool :=
  match alookup st.futures f with
  | some FutSt.pending => false
  | some _ => true
  | none => false

def conflictErr : Err := Err.http 409 "Dialog wait already in progress"

/-- The future-creation and handler-subscription half of `wait_dialog`:
`self.dialog_future = loop.create_future(); self.page.once("dialog", handler)`. -/
def waitDialogCreate (st : BMState) : Except Err Nat × BMState :=
  (Except.ok st.next_fid,
    { st with dialog_future := some st.next_fid,
              futures := ainsert st.next_fid FutSt.pending st.futures,
              next_fid := st.next_fid + 1 })

/-- The entry phase of `BrowserManager.wait_dialog` (lines 620-631), up to the
point where the caller starts awaiting: `NotStarted` without a page, `409
Conflict` when a dialog future exists and is not done, otherwise a fresh
pending future is installed. -/
def waitDialogEnter (st : BMState) : Except Err Nat × BMState :=
  match st.page with
  | none => (Except.error notStartedErr, st)
  | some _ =>
    match st.dialog_future with
    | some f =>
      if futureDone st f = false then (Except.error conflictErr, st)
      else waitDialogCreate st
    | none => waitDialogCreate st

/-- The `handler` closure subscribed by `wait_dialog`: when a dialog fires and
the current dialog future is still pending, record the dialog handle and
fulfil the future with it. -/
def handleDialogEvent (st : BMState) (d : DialogInfo) : BMState :=
  match st.dialog_future with
  | some f =>
    if futureDone st f = false then
      { st with dialog := some d, futures := ainsert f (FutSt.resolvedDialog d) st.futures }
    else st
  | none => st

/-- C7: while a dialog-await is pending (its future not yet done), a second
`wait_dialog` call is rejected with `409 Conflict` and the state is returned
completely untouched — in particular the pending future still resolves with
the next dialog event exactly as it would have without the rejected call. -/
theorem C7_second_dialog_wait_conflict (st : BMState) (p : Page) (f : Nat) (d : DialogInfo)
    (hp : st.page = some p) (hf : st.dialog_future = some f)
    (hpend : alookup st.futures f = some FutSt.pending) :
    waitDialogEnter st = (Except.error conflictErr, st) ∧
    alookup (handleDialogEvent st d).futures f = some (FutSt.resolvedDialog d) ∧
    (handleDialogEvent st d).dialog = some d := by
  have hdone : futureDone st f = false := by
    unfold futureDone
    rw [hpend]
  refine ⟨?_, ?_, ?_⟩
  · simp [waitDialogEnter, hp, hf, hdone]
  · simp [handleDialogEvent, hf, hdone, alookup_ainsert_self]
  · simp [handleDialogEvent, hf, hdone]

/-- A healthy session with a pending dialog-await installed. -/
def exSessionC7 : BMState :=
  { exSessionOk with dialog_future := some 0, futures := [(0, FutSt.pending)], next_fid := 1 }

def exDialog : DialogInfo := { dtype := "alert", message := "hi", defaultValue := "" }

/-- C7 witness: in a session with a pending dialog wait, a second wait returns
Conflict with the state untouched and the pending future still resolves. -/
theorem C7_second_dialog_wait_conflict_witness :
    waitDialogEnter exSessionC7 = (Except.error conflictErr, exSessionC7) ∧
    alookup (handleDialogEvent exSessionC7 exDialog).futures 0
      = some (FutSt.resolvedDialog exDialog) := by
  have h := C7_second_dialog_wait_conflict exSessionC7 livePage 0 exDialog rfl rfl (by decide)
  exact ⟨h.1, h.2.1⟩

/-- `BrowserManager.wait_download` entry (lines 608-612): requires a running
context and unconditionally installs a fresh pending future as
`self.download_future` — note there is no conflict check; an earlier pending
future is simply orphaned (its reference replaced, never fulfilled). -/
def waitDownloadEnter (st : BMState) : Except Err Nat × BMState :=
  if st.running = false then (Except.error notStartedErr, st)
  else
    (Except.ok st.next_fid,
      { st with download_future := some st.next_fid,
                futures := ainsert st.next_fid FutSt.pending st.futures,
                next_fid := st.next_fid + 1 })

/-- The data of one engine download event: its url and suggested filename,
and the outcome of the `save_as` attempt (`saveOk` with `errMsg` the raised
message on failure). -/
structure DownloadEvent where
  url : String
  suggested_filename : String
  saveOk : Bool
  errMsg : String
deriving Repr, DecidableEq

/-- The record `_handle_download` builds: on a successful save the joined
target path, on failure a null path and the error message. -/
def downloadInfoOf (dir : String) (ev : DownloadEvent) : DownloadInfo :=
  if ev.saveOk then
    { url := ev.url, path := some (dir ++ "/" ++ ev.suggested_filename),
      filename := ev.suggested_filename, error := none }
  else
    { url := ev.url, path := none, filename := ev.suggested_filename,
      error := some ev.errMsg }

/-- The tail of `_handle_download`: fulfil the pending download future, if any. -/
def resolveDownloadFuture (st : BMState) (info : DownloadInfo) : BMState :=
  match st.download_future with
  | some f =>
    if futureDone st f = false then
      { st with futures := ainsert f (FutSt.resolvedDownload info) st.futures }
    else st
  | none => st

/-- `BrowserManager._handle_download` (lines 229-241): build the record, set
`last_download`, append to `downloads`, then fulfil the pending future if one
exists and is not yet done. -/
def handleDownload (st : BMState) (ev : DownloadEvent) : BMState :=
  resolveDownloadFuture
    { st with last_download := some (downloadInfoOf st.download_dir ev),
              downloads := st.downloads ++ [downloadInfoOf st.download_dir ev] }
    (downloadInfoOf st.download_dir ev)

/-- C9: an `await download` issued on a running session installs a fresh
pending future; the next download event appends its record, sets
`last_download`, and fulfils that future with exactly that record; a second
download event does not change the fulfilled future again (at most one
fulfilment); and when a second await is issued while the first is pending, a
single download event fulfils only the second (current) future while the
first stays pending — one event never resolves both waits. -/
theorem C9_download_await (st : BMState) (ev ev2 : DownloadEvent)
    (hrun : st.running = true) :
    (waitDownloadEnter st).1 = Except.ok st.next_fid ∧
    alookup (handleDownload (waitDownloadEnter st).2 ev).futures st.next_fid
      = some (FutSt.resolvedDownload (downloadInfoOf st.download_dir ev)) ∧
    (handleDownload (waitDownloadEnter st).2 ev).downloads
      = st.downloads ++ [downloadInfoOf st.download_dir ev] ∧
    (handleDownload (waitDownloadEnter st).2 ev).last_download
      = some (downloadInfoOf st.download_dir ev) ∧
    alookup (handleDownload (handleDownload (waitDownloadEnter st).2 ev) ev2).futures
      st.next_fid = some (FutSt.resolvedDownload (downloadInfoOf st.download_dir ev)) ∧
    alookup (handleDownload (waitDownloadEnter (waitDownloadEnter st).2).2 ev).futures
      (st.next_fid + 1)
      = some (FutSt.resolvedDownload (downloadInfoOf st.download_dir ev)) ∧
    alookup (handleDownload (waitDownloadEnter (waitDownloadEnter st).2).2 ev).futures
      st.next_fid = some FutSt.pending ∧
    st.next_fid ≠ st.next_fid + 1 := by
  obtain ⟨run, pgs, pg, udd, hl, dd, dls, ld, dg, dgf, dlf, fut, nreq, nmap, nidm, nlim,
    nf, np⟩ := st
  simp only at hrun ⊢
  subst hrun
  have hrw2 : ∀ v w : FutSt,
      alookup (ainsert (nf + 1) v (ainsert (nf + 1) w (ainsert nf FutSt.pending fut))) nf
        = some FutSt.pending := by
    intro v w
    rw [alookup_ainsert_ne _ _ _ _ (by omega), alookup_ainsert_ne _ _ _ _ (by omega),
      alookup_ainsert_self]
  refine ⟨?_, ?_, ?_, ?_, ?_, ?_, ?_, by omega⟩
  all_goals
    simp [waitDownloadEnter, handleDownload, resolveDownloadFuture, futureDone,
      alookup_ainsert_self, hrw2]

/-- C9 witness: the download-await scenarios evaluated on the healthy session
with a concrete successful download event. -/
theorem C9_download_await_witness :
    (waitDownloadEnter exSessionOk).1 = Except.ok 0 ∧
    alookup (handleDownload (waitDownloadEnter exSessionOk).2
        { url := "http://f", suggested_filename := "f.zip", saveOk := true,
          errMsg := "" }).futures 0
      = some (FutSt.resolvedDownload
          { url := "http://f", path := some "downloads/f.zip", filename := "f.zip",
            error := none }) := by
  have h := C9_download_await exSessionOk
    { url := "http://f", suggested_filename := "f.zip", saveOk := true, errMsg := "" }
    { url := "http://f", suggested_filename := "f.zip", saveOk := true, errMsg := "" }
    rfl
  exact ⟨h.1, h.2.1⟩

end BrowserServer
